import Mathlib

/-!
Shallow embedding of `lib/sqlalchemy/util/_concurrency_py3k.py`: the
greenlet-based bridge that runs a synchronous callable (`greenlet_spawn`)
while letting it await asyncio awaitables through the adapters
`await_only` / `await_fallback`, plus the exception classifier
`is_exit_exception` and the helpers `_safe_cancel_awaitable` and
`get_event_loop`.

Modelling choices:
- Python exceptions become the inductive `PyExc`; the `isinstance(e, Exception)`
  test becomes `isInstanceOfException`.
- An awaitable is a record carrying whether it is a coroutine (what
  `asyncio.iscoroutine` reports), whether it has been closed
  (`coroutine.close`), and the outcome (value or raised exception) the
  event loop produces when it is driven to completion.
- The synchronous callable `fn` passed to `greenlet_spawn` is a free-monad
  style program `WFn`: it either returns, raises, or calls one of the two
  await adapters with an awaitable and a continuation that receives the
  value or the exception delivered back at the call site.
- The ambient state visible to the code (is the current greenlet an
  `_AsyncIoGreenlet`; is an asyncio event loop running; the current
  contextvars `Context`) is an explicit record `Ctx`.
-/

deriving instance DecidableEq for Except

namespace Concurrency

/-- Model of the Python exceptions the module distinguishes.
`cancelledError` is `asyncio.CancelledError` (a direct `BaseException`
since Python 3.8), `timeoutError` is `asyncio.TimeoutError` (an
`Exception` subclass), `missingGreenlet` and `awaitRequired` are the
module's own error classes (both `Exception` subclasses), `ordinary n`
stands for an arbitrary user exception inheriting `Exception`, and
`baseOnly n` for an arbitrary exception inheriting only `BaseException`
(such as `KeyboardInterrupt` or `SystemExit`). -/
inductive PyExc where
  | missingGreenlet
  | awaitRequired
  | cancelledError
  | timeoutError
  | keyboardInterrupt
  | systemExit
  | ordinary (code : Nat)
  | baseOnly (code : Nat)
deriving DecidableEq

/-- `isinstance(e, Exception)` for our exception model. -/
def isInstanceOfException : PyExc → Bool
  | .cancelledError => false
  | .keyboardInterrupt => false
  | .systemExit => false
  | .baseOnly _ => false
  | _ => true

/-- `isinstance(e, (asyncio.TimeoutError, asyncio.CancelledError))`. -/
def isTimeoutOrCancelled (e : PyExc) : Bool :=
  e == .timeoutError || e == .cancelledError

/-- `is_exit_exception`: `not isinstance(e, Exception) or isinstance(e,
(asyncio.TimeoutError, asyncio.CancelledError))`. -/
def is_exit_exception (e : PyExc) : Bool :=
  !isInstanceOfException e || isTimeoutOrCancelled e

/-- Modelled from the spec's words, for comparison with `is_exit_exception`:
"true if error is not an ordinary recoverable failure — i.e., it is a
cancellation, timeout, or any signal outside the normal recoverable-error
hierarchy". -/
def isExitConditionSpec (e : PyExc) : Bool :=
  e == .cancelledError || e == .timeoutError || !isInstanceOfException e

/-- An awaitable: whether `asyncio.iscoroutine` is true of it, whether it
has been closed (`coroutine.close`), and the outcome the event loop
delivers when the awaitable is driven to completion (`Except.ok` a value,
`Except.error` a raised exception, including cancellation). -/
structure Awaitable (V : Type) where
  isCoroutine : Bool
  closed : Bool
  outcome : Except PyExc V
deriving DecidableEq

/-- `_safe_cancel_awaitable`: `if iscoroutine(awaitable): awaitable.close()`.
Only coroutines are closed; any other awaitable is left untouched. -/
def _safe_cancel_awaitable {V : Type} (a : Awaitable V) : Awaitable V :=
  if a.isCoroutine then { a with closed := true } else a

/-- An asyncio event loop, reduced to the one attribute the module
consults: `is_running()`. -/
structure EventLoop where
  isRunning : Bool
deriving DecidableEq

/-- The ambient execution state visible to the module's functions:
whether `getcurrent()` is an `_AsyncIoGreenlet` (i.e. we are inside a
worker spawned by `greenlet_spawn`), whether an asyncio event loop is
running on the current thread, and the current greenlet's contextvars
`Context` (`gr_context`, abstracted to an optional identifier). -/
structure Ctx where
  currentIsWorker : Bool
  loopRunning : Bool
  gr_context : Option Nat
deriving DecidableEq

/-- `get_event_loop`: `asyncio.get_running_loop()` if a loop is running,
else the policy's default loop. In this single-threaded model the
returned loop is running exactly when a loop is running on the thread
(the policy's default loop is not running when `get_running_loop` failed). -/
def get_event_loop (ctx : Ctx) : EventLoop :=
  { isRunning := ctx.loopRunning }

/-- What a call to an await adapter does before control comes back to its
caller: switch to the driver greenlet carrying an awaitable
(`current.driver.switch(awaitable)`), raise an exception in the caller,
or return a value directly (the `run_until_complete` path of
`await_fallback`). -/
inductive AdapterAct (V : Type) where
  | switchToDriver (a : Awaitable V)
  | raised (e : PyExc)
  | returned (v : V)
deriving DecidableEq

/-- `loop.run_until_complete(awaitable)`: drive the awaitable to
completion on the given loop; its value is returned, its exception is
raised in the caller. -/
def run_until_complete {V : Type} (_loop : EventLoop) (a : Awaitable V) :
    AdapterAct V :=
  match a.outcome with
  | .ok v => .returned v
  | .error e => .raised e

/-- `await_only(awaitable)`. Returns the action taken and the state of
the awaitable afterwards. Inside a worker greenlet it switches to the
driver carrying the awaitable; outside, it first runs
`_safe_cancel_awaitable` and then raises `MissingGreenlet`. -/
def await_only {V : Type} (ctx : Ctx) (a : Awaitable V) :
    AdapterAct V × Awaitable V :=
  if ctx.currentIsWorker then
    (.switchToDriver a, a)
  else
    (.raised .missingGreenlet, _safe_cancel_awaitable a)

/-- `await_fallback(awaitable)`. Inside a worker greenlet, identical to
`await_only`. Outside: if the event loop is already running, discard the
awaitable via `_safe_cancel_awaitable` and raise `MissingGreenlet`;
otherwise run the awaitable to completion with `loop.run_until_complete`. -/
def await_fallback {V : Type} (ctx : Ctx) (a : Awaitable V) :
    AdapterAct V × Awaitable V :=
  if ctx.currentIsWorker then
    (.switchToDriver a, a)
  else
    let loop := get_event_loop ctx
    if loop.isRunning then
      (.raised .missingGreenlet, _safe_cancel_awaitable a)
    else
      (run_until_complete loop a, a)

/-- The synchronous callable `fn` run by `greenlet_spawn`, as a program:
it returns a value, raises an exception, or calls one of the await
adapters on an awaitable, continuing with the value returned (or the
exception raised) at that call site. -/
inductive WFn (V : Type) where
  | ret (v : V)
  | raiseExc (e : PyExc)
  | awaitOnlyCall (a : Awaitable V) (k : Except PyExc V → WFn V)
  | awaitFallbackCall (a : Awaitable V) (k : Except PyExc V → WFn V)

/-- Whether the run of `fn` performs at least one real suspension, i.e.
whether `greenlet_spawn`'s while loop body executes at least once. The
run reaches an adapter call exactly when the program's first step is one. -/
def suspendsOnRun {V : Type} : WFn V → Bool
  | .awaitOnlyCall _ _ => true
  | .awaitFallbackCall _ _ => true
  | _ => false

/-- A program that never calls `await_only` or `await_fallback` during
its run: it immediately returns or raises. -/
inductive NeverSuspends {V : Type} : WFn V → Prop where
  | ret (v : V) : NeverSuspends (WFn.ret v)
  | raiseExc (e : PyExc) : NeverSuspends (WFn.raiseExc e)

/-- The result `fn` itself produces when it never suspends. The adapter
cases are unreachable under `NeverSuspends` and get an arbitrary value. -/
def directOutcome {V : Type} : WFn V → Except PyExc V
  | .ret v => .ok v
  | .raiseExc e => .error e
  | .awaitOnlyCall _ _ => .error .missingGreenlet
  | .awaitFallbackCall _ _ => .error .missingGreenlet

/-- The ambient state seen by code running inside the spawned worker
greenlet: `getcurrent()` is the `_AsyncIoGreenlet`. -/
def workerCtx (ctx : Ctx) : Ctx :=
  { ctx with currentIsWorker := true }

/-- The driver loop of `greenlet_spawn`: run the worker program,
relaying each awaitable it yields to the event loop and feeding the
outcome back in with `switch` (value) or `throw` (exception). Returns
the worker's final outcome together with `switch_occurred`, which
becomes true when the while-loop body runs (the worker yielded at least
once). The adapter's non-switching actions never occur inside a worker
but are handled faithfully: a raise or a direct return is delivered to
the call site without control ever reaching the driver. -/
def spawn_loop {V : Type} (ctx : Ctx) : WFn V → Bool → Except PyExc V × Bool
  | .ret v, so => (.ok v, so)
  | .raiseExc e, so => (.error e, so)
  | .awaitOnlyCall a k, so =>
    match await_only (workerCtx ctx) a with
    | (.switchToDriver a1, _) => spawn_loop ctx (k a1.outcome) true
    | (.raised e, _) => spawn_loop ctx (k (.error e)) so
    | (.returned v, _) => spawn_loop ctx (k (.ok v)) so
  | .awaitFallbackCall a k, so =>
    match await_fallback (workerCtx ctx) a with
    | (.switchToDriver a1, _) => spawn_loop ctx (k a1.outcome) true
    | (.raised e, _) => spawn_loop ctx (k (.error e)) so
    | (.returned v, _) => spawn_loop ctx (k (.ok v)) so

/-- The state of the `_AsyncIoGreenlet` object created by
`greenlet_spawn`: whether it still holds its `driver` attribute (the
back-reference to the driver greenlet), and its `gr_context`. -/
structure GreenletState where
  hasDriverRef : Bool
  gr_context : Option Nat
deriving DecidableEq

/-- `_AsyncIoGreenlet.__init__`: store the driver reference and, when
the greenlet version exposes `gr_context` (`_has_gr_context`), copy the
driver's contextvars `Context` onto the new greenlet. -/
def mk_AsyncIoGreenlet (hasGrContext : Bool) (ctx : Ctx) : GreenletState :=
  { hasDriverRef := true
    gr_context := if hasGrContext then ctx.gr_context else none }

/-- Python's `try: body finally: fin`, for a body that cannot itself
touch the shared state: the finaliser runs on every exit path, also when
the body's result is a propagating exception. -/
def tryFinally {α σ : Type} (body : σ → α × σ) (fin : σ → σ) (s : σ) :
    α × σ :=
  let (r, s1) := body s
  (r, fin s1)

/-- The observable outcome of a `greenlet_spawn` call: the value it
resolves to or the exception it raises, the final `switch_occurred`
flag, and the final state of the worker greenlet object. -/
structure SpawnOut (V : Type) where
  result : Except PyExc V
  switchOccurred : Bool
  context : GreenletState

/-- `greenlet_spawn(fn, *args, _require_await=...)`: create the
`_AsyncIoGreenlet`, run the driver loop under `try/finally` (the
`finally` deletes `context.driver` on every exit path), then — only when
no exception is propagating — raise `AwaitRequired` if `_require_await`
was set and no switch occurred; otherwise return the worker's result. -/
def greenlet_spawn {V : Type} (hasGrContext : Bool) (ctx : Ctx)
    (fn : WFn V) (_require_await : Bool) : SpawnOut V :=
  let context := mk_AsyncIoGreenlet hasGrContext ctx
  let (ro, context) :=
    tryFinally (fun s => (spawn_loop ctx fn false, s))
      (fun s => { s with hasDriverRef := false }) context
  let result : Except PyExc V :=
    match ro.1 with
    | .error e => .error e
    | .ok v =>
      if _require_await && !ro.2 then .error .awaitRequired else .ok v
  ⟨result, ro.2, context⟩

/-- Whether an outcome is the bridge's `AwaitRequired` error. -/
def raisedAwaitRequired {V : Type} : Except PyExc V → Bool
  | .error .awaitRequired => true
  | _ => false

/-- Whether an outcome is a normal value (no exception propagating). -/
def isOkResult {V : Type} : Except PyExc V → Bool
  | .ok _ => true
  | .error _ => false

/- Concrete states and probe awaitables used by the witness theorems. -/

/-- A driver environment: not inside a worker, an event loop running. -/
def ctxDriver : Ctx :=
  { currentIsWorker := false, loopRunning := true, gr_context := some 0 }

/-- Plain synchronous environment: no worker, no running event loop. -/
def ctxOutside : Ctx :=
  { currentIsWorker := false, loopRunning := false, gr_context := none }

/-- No worker, but an event loop is already running. -/
def ctxOutsideRunning : Ctx :=
  { currentIsWorker := false, loopRunning := true, gr_context := none }

/-- Inside a worker greenlet. -/
def ctxWorker : Ctx :=
  { currentIsWorker := true, loopRunning := true, gr_context := some 0 }

/-- A coroutine probe awaitable. -/
def coroProbe : Awaitable Nat :=
  { isCoroutine := true, closed := false, outcome := .ok 0 }

/-- A non-coroutine awaitable (an asyncio Future, say). -/
def futureProbe : Awaitable Nat :=
  { isCoroutine := false, closed := false, outcome := .ok 0 }

/-- A coroutine that resolves to 5 when driven. -/
def resolveLater5 : Awaitable Nat :=
  { isCoroutine := true, closed := false, outcome := .ok 5 }

/-- A coroutine whose await is cancelled mid-flight. -/
def awCancelled : Awaitable Nat :=
  { isCoroutine := true, closed := false, outcome := .error .cancelledError }

/-- A worker continuation that returns a delivered value and re-raises a
delivered exception unchanged (an `fn` that does not handle errors). -/
def propagateK : Except PyExc Nat → WFn Nat
  | .ok v => .ret v
  | .error e => .raiseExc e

/- Helper lemmas about the driver loop and `greenlet_spawn`. -/

/-- Once `switch_occurred` is set it stays set for the rest of the loop. -/
theorem spawn_loop_snd_true {V : Type} (ctx : Ctx) (fn : WFn V) :
    (spawn_loop ctx fn true).2 = true := by
  induction fn with
  | ret v => rfl
  | raiseExc e => rfl
  | awaitOnlyCall a k ih =>
    simpa [spawn_loop, await_only, workerCtx] using ih a.outcome
  | awaitFallbackCall a k ih =>
    simpa [spawn_loop, await_fallback, workerCtx] using ih a.outcome

/-- The loop's final `switch_occurred` flag records exactly whether the
run of `fn` performed a suspension. -/
theorem spawn_loop_snd {V : Type} (ctx : Ctx) (fn : WFn V) :
    (spawn_loop ctx fn false).2 = suspendsOnRun fn := by
  cases fn with
  | ret v => rfl
  | raiseExc e => rfl
  | awaitOnlyCall a k =>
    simp [spawn_loop, suspendsOnRun, await_only, workerCtx, spawn_loop_snd_true]
  | awaitFallbackCall a k =>
    simp [spawn_loop, suspendsOnRun, await_fallback, workerCtx, spawn_loop_snd_true]

/-- Unfolding of the result of `greenlet_spawn` in terms of the loop. -/
theorem greenlet_spawn_result_eq {V : Type} (hasGrContext : Bool) (ctx : Ctx)
    (fn : WFn V) (req : Bool) :
    (greenlet_spawn hasGrContext ctx fn req).result =
      (match (spawn_loop ctx fn false).1 with
       | .error e => .error e
       | .ok v =>
         if req && !(spawn_loop ctx fn false).2 then
           Except.error PyExc.awaitRequired
         else .ok v) := rfl

/-- Unfolding of the `switch_occurred` flag of `greenlet_spawn`. -/
theorem greenlet_spawn_switch_eq {V : Type} (hasGrContext : Bool) (ctx : Ctx)
    (fn : WFn V) (req : Bool) :
    (greenlet_spawn hasGrContext ctx fn req).switchOccurred =
      (spawn_loop ctx fn false).2 := rfl

/-- Unfolding of the final greenlet-object state of `greenlet_spawn`. -/
theorem greenlet_spawn_context_eq {V : Type} (hasGrContext : Bool) (ctx : Ctx)
    (fn : WFn V) (req : Bool) :
    (greenlet_spawn hasGrContext ctx fn req).context =
      { hasDriverRef := false
        gr_context := if hasGrContext then ctx.gr_context else none } := rfl

/-- With `_require_await` unset, `greenlet_spawn`'s outcome is exactly
the loop's outcome. -/
theorem greenlet_spawn_false_result {V : Type} (hasGrContext : Bool)
    (ctx : Ctx) (fn : WFn V) :
    (greenlet_spawn hasGrContext ctx fn false).result =
      (spawn_loop ctx fn false).1 := by
  rw [greenlet_spawn_result_eq]
  cases (spawn_loop ctx fn false).1 <;> rfl

/-- C1: for every callable `fn` that never calls `await_only` or
`await_fallback` (never suspends), `greenlet_spawn fn` resolves to
exactly the value `fn` returns, and if `fn` raises an error, the spawn
fails with exactly that error, unchanged. -/
theorem C1_spawn_of_nonsuspending_fn {V : Type} (hasGrContext : Bool)
    (ctx : Ctx) (fn : WFn V) (h : NeverSuspends fn) :
    (greenlet_spawn hasGrContext ctx fn false).result = directOutcome fn := by
  rw [greenlet_spawn_false_result]
  cases h with
  | ret v => rfl
  | raiseExc e => rfl

/-- Witness for C1 at a concrete non-suspending callable. -/
theorem C1_witness :
    NeverSuspends (WFn.ret (3 : Nat)) ∧
    (greenlet_spawn true ctxDriver (WFn.ret (3 : Nat)) false).result =
      directOutcome (WFn.ret (3 : Nat)) :=
  ⟨NeverSuspends.ret 3,
   C1_spawn_of_nonsuspending_fn true ctxDriver _ (NeverSuspends.ret 3)⟩

/-- C2: every error E raised by the awaitable that the driver loop
awaits is delivered into the worker exactly at the adapter call site
that yielded that awaitable (the continuation runs on `Except.error E`),
and if the worker re-raises it unhandled, `greenlet_spawn` ultimately
fails with exactly E — never wrapped, replaced, or swallowed — through
either adapter and for either value of `_require_await`. -/
theorem C2_awaited_error_roundtrip {V : Type} (hasGrContext : Bool)
    (ctx : Ctx) (req : Bool) (a : Awaitable V) (e : PyExc)
    (k : Except PyExc V → WFn V)
    (ha : a.outcome = Except.error e)
    (hk : k (Except.error e) = WFn.raiseExc e) :
    (∀ (k1 : Except PyExc V → WFn V) (so : Bool),
      spawn_loop ctx (WFn.awaitOnlyCall a k1) so =
        spawn_loop ctx (k1 (Except.error e)) true) ∧
    (∀ (k1 : Except PyExc V → WFn V) (so : Bool),
      spawn_loop ctx (WFn.awaitFallbackCall a k1) so =
        spawn_loop ctx (k1 (Except.error e)) true) ∧
    (greenlet_spawn hasGrContext ctx (WFn.awaitOnlyCall a k) req).result =
      Except.error e ∧
    (greenlet_spawn hasGrContext ctx (WFn.awaitFallbackCall a k) req).result =
      Except.error e := by
  refine ⟨fun k1 so => ?_, fun k1 so => ?_, ?_, ?_⟩
  · simp [spawn_loop, await_only, workerCtx, ha]
  · simp [spawn_loop, await_fallback, workerCtx, ha]
  · rw [greenlet_spawn_result_eq]
    simp [spawn_loop, await_only, workerCtx, ha, hk]
  · rw [greenlet_spawn_result_eq]
    simp [spawn_loop, await_fallback, workerCtx, ha, hk]

/-- Witness for C2: a cancellation raised by the awaited operation is
re-raised by a non-handling worker and surfaces unchanged. -/
theorem C2_witness :
    (greenlet_spawn true ctxDriver (WFn.awaitOnlyCall awCancelled propagateK)
        false).result = Except.error PyExc.cancelledError :=
  (C2_awaited_error_roundtrip true ctxDriver false awCancelled
    PyExc.cancelledError propagateK rfl rfl).2.2.1

/-- C3 counterexample: for a non-coroutine awaitable (e.g. an asyncio
Future), `await_only` called outside a worker raises `MissingGreenlet`
but does NOT discard the awaitable — `_safe_cancel_awaitable` closes
only coroutines, so the probe is left pending. -/
theorem C3_counterexample :
    (await_only ctxOutside futureProbe).1 =
      AdapterAct.raised PyExc.missingGreenlet ∧
    (await_only ctxOutside futureProbe).2.closed = false := by decide

/-- C3 (amended): `await_only` called from any context that is not a
worker greenlet always raises `MissingGreenlet`, and when the awaitable
is a coroutine it is closed (discarded without being run) before the
error is raised. -/
theorem C3_await_only_outside_worker {V : Type} (ctx : Ctx)
    (a : Awaitable V) (h : ctx.currentIsWorker = false) :
    (await_only ctx a).1 = AdapterAct.raised PyExc.missingGreenlet ∧
    (a.isCoroutine = true → (await_only ctx a).2.closed = true) := by
  refine ⟨?_, fun hc => ?_⟩
  · simp [await_only, h]
  · simp [await_only, _safe_cancel_awaitable, h, hc]

/-- Witness for C3 at a concrete coroutine probe. -/
theorem C3_witness :
    (await_only ctxOutside coroProbe).1 =
      AdapterAct.raised PyExc.missingGreenlet ∧
    (await_only ctxOutside coroProbe).2.closed = true :=
  ⟨(C3_await_only_outside_worker ctxOutside coroProbe rfl).1,
   (C3_await_only_outside_worker ctxOutside coroProbe rfl).2 rfl⟩

/-- C4 counterexample: a callable that raises without ever suspending
makes `greenlet_spawn` with `_require_await=True` fail with that error,
not with `AwaitRequired` — refuting the claimed "if and only if". -/
theorem C4_counterexample :
    suspendsOnRun (WFn.raiseExc (PyExc.ordinary 7) : WFn Nat) = false ∧
    (greenlet_spawn true ctxDriver (WFn.raiseExc (PyExc.ordinary 7) : WFn Nat)
        true).result = Except.error (PyExc.ordinary 7) ∧
    raisedAwaitRequired
      (greenlet_spawn true ctxDriver (WFn.raiseExc (PyExc.ordinary 7) : WFn Nat)
        true).result = false := by decide

/-- C4 (amended): provided `fn` does not itself raise `AwaitRequired`,
`greenlet_spawn fn` with `_require_await=True` raises `AwaitRequired`
exactly when `fn` never suspended AND `fn`'s run completed without a
propagating error. -/
theorem C4_require_await_amended {V : Type} (hasGrContext : Bool)
    (ctx : Ctx) (fn : WFn V)
    (h : raisedAwaitRequired
      (greenlet_spawn hasGrContext ctx fn false).result = false) :
    raisedAwaitRequired (greenlet_spawn hasGrContext ctx fn true).result =
      (!suspendsOnRun fn &&
        isOkResult (greenlet_spawn hasGrContext ctx fn false).result) := by
  rw [greenlet_spawn_false_result] at h ⊢
  rw [greenlet_spawn_result_eq, ← spawn_loop_snd ctx fn]
  rcases hE : spawn_loop ctx fn false with ⟨r1, r2⟩
  rw [hE] at h
  cases r1 with
  | error e => simp [isOkResult, h]
  | ok v => cases r2 <;> simp [raisedAwaitRequired, isOkResult]

/-- Witness for C4 (amended) at a concrete normally-returning,
never-suspending callable: the spawn does raise `AwaitRequired`. -/
theorem C4_witness :
    raisedAwaitRequired
      (greenlet_spawn true ctxDriver (WFn.ret (3 : Nat)) true).result =
      (!suspendsOnRun (WFn.ret (3 : Nat)) &&
        isOkResult (greenlet_spawn true ctxDriver (WFn.ret (3 : Nat))
          false).result) :=
  C4_require_await_amended true ctxDriver _ (by decide)

/-- C5 counterexample: with an event loop already running and a
non-coroutine awaitable, `await_fallback` outside a worker raises
`MissingGreenlet` but does NOT discard the awaitable, since
`_safe_cancel_awaitable` closes only coroutines. -/
theorem C5_counterexample :
    (await_fallback ctxOutsideRunning futureProbe).1 =
      AdapterAct.raised PyExc.missingGreenlet ∧
    (await_fallback ctxOutsideRunning futureProbe).2.closed = false := by
  decide

/-- C5 (amended): `await_fallback` called outside a worker: if no event
loop is running, it drives the awaitable to completion on the loop from
`get_event_loop` and returns its value (or raises its error); if a loop
is already running, it raises `MissingGreenlet`, discarding the
awaitable first when it is a coroutine. -/
theorem C5_await_fallback_outside_worker {V : Type} (ctx : Ctx)
    (a : Awaitable V) (h : ctx.currentIsWorker = false) :
    (ctx.loopRunning = false →
      (await_fallback ctx a).1 = run_until_complete (get_event_loop ctx) a ∧
      (∀ v : V, a.outcome = Except.ok v →
        (await_fallback ctx a).1 = AdapterAct.returned v) ∧
      (∀ e : PyExc, a.outcome = Except.error e →
        (await_fallback ctx a).1 = AdapterAct.raised e)) ∧
    (ctx.loopRunning = true →
      (await_fallback ctx a).1 = AdapterAct.raised PyExc.missingGreenlet ∧
      (a.isCoroutine = true → (await_fallback ctx a).2.closed = true)) := by
  constructor
  · intro hl
    refine ⟨?_, fun v hv => ?_, fun e he => ?_⟩
    · simp [await_fallback, get_event_loop, h, hl]
    · simp [await_fallback, get_event_loop, run_until_complete, h, hl, hv]
    · simp [await_fallback, get_event_loop, run_until_complete, h, hl, he]
  · intro hl
    refine ⟨?_, fun hc => ?_⟩
    · simp [await_fallback, get_event_loop, h, hl]
    · simp [await_fallback, get_event_loop, _safe_cancel_awaitable, h, hl, hc]

/-- Witness for C5: the spec scenario — `await_fallback` on a coroutine
resolving to 5, with no worker and no running loop, returns 5. -/
theorem C5_witness :
    (await_fallback ctxOutside resolveLater5).1 = AdapterAct.returned 5 :=
  (((C5_await_fallback_outside_worker ctxOutside resolveLater5 rfl).1
    rfl).2.1) 5 rfl

/-- C6: on every exit path of the driver loop — normal return,
propagated error, or cancellation delivered while awaiting — the worker
greenlet's owning `driver` reference is deleted before `greenlet_spawn`
completes, so no worker/driver reference cycle survives the call. -/
theorem C6_driver_reference_released {V : Type} (hasGrContext : Bool)
    (ctx : Ctx) (fn : WFn V) (req : Bool) :
    (greenlet_spawn hasGrContext ctx fn req).context.hasDriverRef = false :=
  rfl

/-- C7: inside a worker greenlet, `await_fallback` behaves exactly like
`await_only` — the same switch to the driver with the same awaitable —
and the driver loop treats the two adapter calls identically. -/
theorem C7_fallback_equals_only_in_worker {V : Type} (ctx : Ctx)
    (a : Awaitable V) (h : ctx.currentIsWorker = true) :
    await_fallback ctx a = await_only ctx a ∧
    (∀ (d : Ctx) (k : Except PyExc V → WFn V) (so : Bool),
      spawn_loop d (WFn.awaitFallbackCall a k) so =
        spawn_loop d (WFn.awaitOnlyCall a k) so) := by
  constructor
  · simp [await_fallback, await_only, h]
  · intro d k so
    simp [spawn_loop, await_only, await_fallback, workerCtx]

/-- Witness for C7 at a concrete in-worker context and awaitable. -/
theorem C7_witness :
    await_fallback ctxWorker resolveLater5 = await_only ctxWorker resolveLater5 :=
  (C7_fallback_equals_only_in_worker ctxWorker resolveLater5 rfl).1

/-- C8: `is_exit_exception e` is true exactly when e is not an ordinary
recoverable failure — a cancellation, a timeout, or any signal outside
the `Exception` hierarchy — matching the spec's classifier word for
word; in particular it is false on every ordinary recoverable error. -/
theorem C8_is_exit_exception_matches_spec (e : PyExc) :
    is_exit_exception e = isExitConditionSpec e := by
  cases e <;> rfl

/-- C9: when the greenlet version exposes `gr_context`, the worker
greenlet captures the driver's contextvars `Context` at creation, and
that snapshot is still the worker's context when `greenlet_spawn`
completes (the run never replaces it). -/
theorem C9_gr_context_snapshot {V : Type} (hasGrContext : Bool) (ctx : Ctx)
    (fn : WFn V) (req : Bool) (h : hasGrContext = true) :
    (mk_AsyncIoGreenlet hasGrContext ctx).gr_context = ctx.gr_context ∧
    (greenlet_spawn hasGrContext ctx fn req).context.gr_context =
      ctx.gr_context := by
  subst h
  exact ⟨rfl, rfl⟩

/-- Witness for C9 at a concrete driver context and callable. -/
theorem C9_witness :
    (mk_AsyncIoGreenlet true ctxDriver).gr_context = ctxDriver.gr_context ∧
    (greenlet_spawn true ctxDriver (WFn.ret (0 : Nat)) false).context.gr_context =
      ctxDriver.gr_context :=
  C9_gr_context_snapshot true ctxDriver (WFn.ret 0) false rfl

/-- C10: a callable that raises E without ever suspending makes
`greenlet_spawn` with `_require_await=True` fail with exactly E: the
propagating error takes precedence because the suspension check runs
only on the non-exceptional path after the loop exits. -/
theorem C10_error_beats_await_required {V : Type} (hasGrContext : Bool)
    (ctx : Ctx) (e : PyExc) :
    (greenlet_spawn hasGrContext ctx (WFn.raiseExc e : WFn V) true).result =
      Except.error e ∧
    suspendsOnRun (WFn.raiseExc e : WFn V) = false :=
  ⟨rfl, rfl⟩

end Concurrency
